import Mathlib

/-!
Verification of the TOMO Academy ID-card export pipeline.

The definitions below are a shallow embedding of the TypeScript sources:
* `exportable-id-card.tsx` (`ExportableIDCard.renderAvatar`),
* `compact-id-card.tsx` (`CompactIDCard.renderAvatar`),
* the off-screen-render export utility (`renderAndCapture`,
  `exportSingleCardAsPNG`, `exportSingleCardAsPDF`, `exportAllCardsAsPNG`,
  `exportAllCardsAsPDF`, `exportIndividualPDFs`),
* the DOM-lookup export utility `src/utils/exportIdCards.ts`
  (the `dom_` prefixed definitions),
* `ExportIdCardsButton.tsx`.

Stateful browser behaviour (DOM mounts, file downloads, pacing `setTimeout`
calls, `jsPDF` documents) is embedded as explicit state passing over an
`ExportSt` record together with an event trace; the `html2canvas` rasterizer
is an oracle parameter that either returns a canvas or throws.
Physical PDF dimensions are represented in hundredths of a millimetre
(85.6mm = 8560, 53.98mm = 5398) to stay in `Nat`.
-/

namespace TomoAcademy

/-- The `Employee` interface of the export utilities: the fields the export
path uses.  `photo` is optional (`photo?: string`). -/
structure Employee where
  id : String
  name : String
  role : String
  employeeId : String
  location : String
  photo : Option String := none
deriving Repr, DecidableEq

/-- A card side: the `'front' | 'back'` union type. -/
inductive Side where
  | front
  | back
deriving Repr, DecidableEq

/-- The string used for a side in file names (`_front.png` / `_back.png`). -/
def Side.str : Side → String
  | .front => "front"
  | .back => "back"

/-! ### Initials fallback (`ExportableIDCard.renderAvatar`)

Source (exportable-id-card.tsx):
```
const initials = employee.name
  .split(' ')
  .map(n => n[0])
  .join('')
  .toUpperCase()
  .slice(0, 2);
```
JS `split(' ')` splits on the single space character only (consecutive spaces
produce empty tokens); `n[0]` on an empty token is `undefined`, which
`join('')` renders as the empty string, so empty tokens contribute nothing.
`toUpperCase` acts characterwise, so applying it before or after `slice(0,2)`
gives the same string; we embed at the character-list level with `Char.toUpper`
mapped over the collected first characters. -/

/-- JS `String.prototype.split` with a single-character separator, embedded on
the character list: each occurrence of the separator starts a new token, so
consecutive separators produce empty tokens and the empty string yields
`[[]]`, exactly as `''.split(' ')` yields `[""]` in JS. -/
def jsSplitChar (sep : Char) : List Char → List (List Char)
  | [] => [[]]
  | c :: cs =>
    if c = sep then [] :: jsSplitChar sep cs
    else
      match jsSplitChar sep cs with
      | [] => [[c]]
      | t :: ts => (c :: t) :: ts

/-- Splitting on a character class; used only to state the claim's
"whitespace-separated tokens" reading. -/
def splitOnPred (p : Char → Bool) : List Char → List (List Char)
  | [] => [[]]
  | c :: cs =>
    if p c then [] :: splitOnPred p cs
    else
      match splitOnPred p cs with
      | [] => [[c]]
      | t :: ts => (c :: t) :: ts

/-- First character of each token, dropping the `undefined` that `n[0]`
produces on an empty token (which `join('')` discards). -/
def tokenFirstChars (toks : List (List Char)) : List Char :=
  toks.filterMap List.head?

/-- The initials string computed by `ExportableIDCard.renderAvatar`. -/
def jsInitials (name : String) : String :=
  String.mk (((tokenFirstChars (jsSplitChar ' ' name.toList)).map Char.toUpper).take 2)

/-- The claim's wording: uppercase first letters of the first two
WHITESPACE-separated (nonempty) tokens of the name. -/
def specInitialsWhitespace (name : String) : String :=
  String.mk ((((splitOnPred Char.isWhitespace name.toList).filter (· ≠ [])).take 2).filterMap
    (fun t => t.head?.map Char.toUpper))

/-- The spec §4.1 wording: uppercase first letters of the first two
SPACE-separated (nonempty) tokens of the name. -/
def specInitialsSpace (name : String) : String :=
  String.mk ((((jsSplitChar ' ' name.toList).filter (· ≠ [])).take 2).filterMap
    (fun t => t.head?.map Char.toUpper))

/-- What `renderAvatar` produces: either the `<img>` with the photo source or
the initials glyph `<div>`. -/
inductive Avatar where
  | photoImg (src : String)
  | initialsGlyph (text : String)
deriving Repr, DecidableEq

/-- JS truthiness of the optional `employee.photo` string
(`undefined` and `""` are falsy). -/
def photoTruthy : Option String → Bool
  | none => false
  | some s => s ≠ ""

/-- `ExportableIDCard.renderAvatar`: `if (employee.photo) { <img…> } else
{ <div>{initials}</div> }`. -/
def renderAvatar (e : Employee) : Avatar :=
  if photoTruthy e.photo then .photoImg (e.photo.getD "")
  else .initialsGlyph (jsInitials e.name)

/-- Modelled from the spec: `githubPhotoService.getAvatarProps` (the service
source is not under src/; `CompactIDCard.renderAvatar` shows only the call
site).  Per spec §4.1 the photo-failure fallback is "a computed initials glyph
(uppercase first letters of the first two space-separated name tokens)". -/
def getAvatarPropsFallback (e : Employee) : String :=
  specInitialsSpace e.name

/-- `CompactIDCard.renderAvatar`: shows the `<img>` when a source is present
and no load error has fired; otherwise the service-provided initials
fallback. -/
def compactRenderAvatar (e : Employee) (src : Option String)
    (imageError : Bool) : Avatar :=
  if photoTruthy src && !imageError then .photoImg (src.getD "")
  else .initialsGlyph (getAvatarPropsFallback e)

/-- A concrete employee with no photo, used to instantiate theorems. -/
def ada : Employee :=
  { id := "1", name := "Ada Lovelace", role := "Engineer",
    employeeId := "E001", location := "London" }

/-- An employee whose name contains a tab instead of a space. -/
def adaTab : Employee :=
  { id := "2", name := "Ada\tLovelace", role := "Engineer",
    employeeId := "E002", location := "London" }

/-- An employee with a photo URL that will fail to load.  The exportable
card's markup can make no use of that fact: the source's `<img>` has no
`onError` handler, so the rendered output is the same whether the URL loads
or not — which is why `renderAvatar` takes no load-outcome input. -/
def brokenPhotoAda : Employee :=
  { id := "4", name := "Ada Lovelace", role := "Engineer",
    employeeId := "E004", location := "London",
    photo := some "https://example.invalid/ada.png" }

/-! ### jsPDF model

Physical sizes are in hundredths of a millimetre: the card format
`[85.6, 53.98]` becomes `[8560, 5398]`. -/

/-- The jsPDF `orientation` option. -/
inductive PdfOrient where
  | landscape
  | portrait
deriving Repr, DecidableEq

/-- One image placed on a page by `pdf.addImage(data,'PNG',x,y,w,h)`. -/
structure PdfImage where
  data : String
  x : Nat
  y : Nat
  w : Nat
  h : Nat
deriving Repr, DecidableEq

/-- One PDF page: its physical size (hundredths of mm) and its images. -/
structure PdfPage where
  width : Nat
  height : Nat
  images : List PdfImage
deriving Repr, DecidableEq

/-- A jsPDF document: orientation, page format and pages in order. -/
structure PdfDoc where
  orient : PdfOrient
  formatW : Nat
  formatH : Nat
  pages : List PdfPage
deriving Repr, DecidableEq

/-- 85.6 mm, in hundredths of a millimetre. -/
def cardW : Nat := 8560

/-- 53.98 mm, in hundredths of a millimetre. -/
def cardH : Nat := 5398

/-- `new jsPDF({orientation, unit: 'mm', format: [w, h]})`: a fresh document
holds ONE empty page of the given format. -/
def jsPDFnew (o : PdfOrient) (w h : Nat) : PdfDoc :=
  ⟨o, w, h, [⟨w, h, []⟩]⟩

/-- `pdf.addPage()`: appends a fresh page of the document's format; the new
page becomes the current one. -/
def PdfDoc.addPage (d : PdfDoc) : PdfDoc :=
  { d with pages := d.pages ++ [⟨d.formatW, d.formatH, []⟩] }

/-- `pdf.addImage(data, 'PNG', x, y, w, h)`: draws onto the current (last)
page. -/
def PdfDoc.addImage (d : PdfDoc) (data : String) (x y w h : Nat) : PdfDoc :=
  match d.pages.getLast? with
  | none => d
  | some p =>
      { d with pages := d.pages.dropLast
          ++ [{ p with images := p.images ++ [⟨data, x, y, w, h⟩] }] }

/-! ### Export pipeline state -/

/-- The canvas `html2canvas` resolves with; only its PNG data URL is used
downstream (`canvas.toDataURL('image/png')`). -/
structure Canvas where
  dataURL : String
deriving Repr, DecidableEq

/-- The error the rasterizer / capture step throws (spec §4.3
`CaptureError`). -/
structure CaptureError where
  msg : String
deriving Repr, DecidableEq

/-- Observable browser events in program order: the fixed 100ms render-settle
delay inside the off-screen helper, a successful rasterization of one card
face, an anchor-click file download, a pacing `setTimeout` of a batch loop,
and a `pdf.save` call. -/
inductive Event where
  | settle (ms : Nat)
  | capture (id : String) (side : Side)
  | download (filename : String)
  | pause (ms : Nat)
  | savePdf (filename : String)
deriving Repr, DecidableEq

/-- Browser-side state threaded through the export functions.  `dom` counts
the temporary off-screen containers currently attached to `document.body`;
`downloads` lists triggered file downloads in order; `savedPdfs` lists
`pdf.save` results in order. -/
structure ExportSt where
  dom : Nat
  downloads : List String
  savedPdfs : List (String × PdfDoc)
  trace : List Event
deriving Repr, DecidableEq

/-- The state before an export job starts. -/
def st0 : ExportSt := ⟨0, [], [], []⟩

/-- The `html2canvas` oracle for the off-screen pipeline: rasterizing the
container that holds employee `e`'s card, side `s`, either resolves with a
canvas or throws. -/
abbrev Raster := Employee → Side → Except CaptureError Canvas

/-- `renderAndCapture`: creates the off-screen container and appends it to
`document.body`, renders the card and waits the fixed 100ms settle delay,
rasterizes via `html2canvas`, and then — only on the success path —
unmounts the root and removes the container.  The source wraps nothing in
try/finally, so a rasterizer throw propagates BEFORE the cleanup lines run,
leaving the container attached. -/
def renderAndCapture (raster : Raster) (e : Employee) (s : Side)
    (st : ExportSt) : Except CaptureError Canvas × ExportSt :=
  let st1 := { st with dom := st.dom + 1,
                       trace := st.trace ++ [.settle 100] }
  match raster e s with
  | .error err => (.error err, st1)
  | .ok canvas =>
      (.ok canvas, { st1 with dom := st1.dom - 1,
                              trace := st1.trace ++ [.capture e.id s] })

/-- JS `name.replace(/\s+/g, '_')`, embedded structurally: each maximal run
of whitespace becomes a single underscore.  The flag records whether the scan
is currently inside a whitespace run. -/
def replaceWsRunsAux : Bool → List Char → List Char
  | _, [] => []
  | inRun, c :: cs =>
    if c.isWhitespace then
      if inRun then replaceWsRunsAux true cs
      else '_' :: replaceWsRunsAux true cs
    else c :: replaceWsRunsAux false cs

/-- JS `name.replace(/\s+/g, '_')`. -/
def replaceWsRuns (l : List Char) : List Char :=
  replaceWsRunsAux false l

/-- The per-employee file-name stem:
`employee.name.replace(/\s+/g, '_') + '_' + employee.employeeId`. -/
def jsFileName (e : Employee) : String :=
  String.mk (replaceWsRuns e.name.toList) ++ "_" ++ e.employeeId

/-- `exportSingleCardAsPNG` (off-screen variant): render-and-capture, then
trigger the download `fileName_side.png`; the catch block re-throws. -/
def exportSingleCardAsPNG (raster : Raster) (e : Employee) (fileName : String)
    (s : Side) (st : ExportSt) : Except CaptureError Unit × ExportSt :=
  match renderAndCapture raster e s st with
  | (.error err, st) => (.error err, st)
  | (.ok _canvas, st) =>
      let file := fileName ++ "_" ++ s.str ++ ".png"
      (.ok (), { st with downloads := st.downloads ++ [file],
                         trace := st.trace ++ [.download file] })

/-- `exportAllCardsAsPNG` (off-screen variant): per employee, export front,
pause 100ms, export back, pause 200ms; the catch block re-throws, so the
first failure aborts the remaining iterations. -/
def exportAllCardsAsPNG (raster : Raster) :
    List Employee → ExportSt → Except CaptureError Unit × ExportSt
  | [], st => (.ok (), st)
  | e :: rest, st =>
    match exportSingleCardAsPNG raster e (jsFileName e) .front st with
    | (.error err, st) => (.error err, st)
    | (.ok _, st) =>
        let st : ExportSt := { st with trace := st.trace ++ [.pause 100] }
        match exportSingleCardAsPNG raster e (jsFileName e) .back st with
        | (.error err, st) => (.error err, st)
        | (.ok _, st) =>
            let st : ExportSt := { st with trace := st.trace ++ [.pause 200] }
            exportAllCardsAsPNG raster rest st

/-- `exportSingleCardAsPDF` (off-screen variant): capture both sides, build a
fresh two-page card-format document, save it as `fileName.pdf`. -/
def exportSingleCardAsPDF (raster : Raster) (e : Employee) (fileName : String)
    (st : ExportSt) : Except CaptureError Unit × ExportSt :=
  match renderAndCapture raster e .front st with
  | (.error err, st) => (.error err, st)
  | (.ok frontCanvas, st) =>
      match renderAndCapture raster e .back st with
      | (.error err, st) => (.error err, st)
      | (.ok backCanvas, st) =>
          let pdf := jsPDFnew .landscape cardW cardH
          let pdf := pdf.addImage frontCanvas.dataURL 0 0 cardW cardH
          let pdf := pdf.addPage
          let pdf := pdf.addImage backCanvas.dataURL 0 0 cardW cardH
          let file := fileName ++ ".pdf"
          (.ok (), { st with savedPdfs := st.savedPdfs ++ [(file, pdf)],
                             trace := st.trace ++ [.savePdf file] })

/-- The loop body of `exportAllCardsAsPDF` (off-screen variant): captures
both sides, adds a page before the front image except on the very first
employee (the fresh document already has its initial page), always adds a
page before the back image, then pauses 100ms. -/
def exportAllCardsAsPDFLoop (raster : Raster) :
    List Employee → PdfDoc → Bool → ExportSt →
      Except CaptureError PdfDoc × ExportSt
  | [], pdf, _, st => (.ok pdf, st)
  | e :: rest, pdf, firstPage, st =>
    match renderAndCapture raster e .front st with
    | (.error err, st) => (.error err, st)
    | (.ok frontCanvas, st) =>
        match renderAndCapture raster e .back st with
        | (.error err, st) => (.error err, st)
        | (.ok backCanvas, st) =>
            let pdf := if firstPage then pdf else pdf.addPage
            let pdf := pdf.addImage frontCanvas.dataURL 0 0 cardW cardH
            let pdf := pdf.addPage
            let pdf := pdf.addImage backCanvas.dataURL 0 0 cardW cardH
            let st : ExportSt := { st with trace := st.trace ++ [.pause 100] }
            exportAllCardsAsPDFLoop raster rest pdf false st

/-- `exportAllCardsAsPDF` (off-screen variant): run the loop on a fresh
card-format document, then save it under the fixed name — the save is
unconditional, so an empty loop still downloads the document with its single
initial blank page. -/
def exportAllCardsAsPDF (raster : Raster) (employees : List Employee)
    (st : ExportSt) : Except CaptureError Unit × ExportSt :=
  match exportAllCardsAsPDFLoop raster employees
      (jsPDFnew .landscape cardW cardH) true st with
  | (.error err, st) => (.error err, st)
  | (.ok pdf, st) =>
      let file := "TOMO_Academy_All_ID_Cards.pdf"
      (.ok (), { st with savedPdfs := st.savedPdfs ++ [(file, pdf)],
                         trace := st.trace ++ [.savePdf file] })

/-- `exportIndividualPDFs` (off-screen variant): one two-page document per
employee, then a 300ms pause; the first failure aborts the rest. -/
def exportIndividualPDFs (raster : Raster) :
    List Employee → ExportSt → Except CaptureError Unit × ExportSt
  | [], st => (.ok (), st)
  | e :: rest, st =>
    match exportSingleCardAsPDF raster e (jsFileName e) st with
    | (.error err, st) => (.error err, st)
    | (.ok _, st) =>
        let st : ExportSt := { st with trace := st.trace ++ [.pause 300] }
        exportIndividualPDFs raster rest st

/-! ### DOM-lookup export variant (`src/utils/exportIdCards.ts`)

This variant captures pre-rendered on-screen cards located by
`document.querySelector('[data-card-id="…"][data-side="…"]')`. -/

/-- An on-screen card element carrying the two identifying attributes. -/
structure Elem where
  cardId : String
  side : Side
deriving Repr, DecidableEq

/-- The on-screen DOM: which (card id, side) attribute pairs resolve to an
element (`document.querySelector` returns the element or `null`). -/
abbrev DomLookup := String → Side → Option Elem

/-- The `html2canvas` oracle for on-screen elements. -/
abbrev ElemRaster := Elem → Except CaptureError Canvas

/-- `exportSingleCardAsPNG` (DOM variant): rasterize the given element and
trigger the download `fileName_side.png`; the catch block re-throws. -/
def dom_exportSingleCardAsPNG (rasterE : ElemRaster) (el : Elem)
    (fileName : String) (s : Side) (st : ExportSt) :
    Except CaptureError Unit × ExportSt :=
  match rasterE el with
  | .error err => (.error err, st)
  | .ok _canvas =>
      let file := fileName ++ "_" ++ s.str ++ ".png"
      (.ok (), { st with downloads := st.downloads ++ [file],
                         trace := st.trace
                           ++ [.capture el.cardId s, .download file] })

/-- `exportAllCardsAsPNG` (DOM variant): looks up both card elements for each
employee; when either querySelector returns null the employee is silently
skipped; otherwise front, pause 100ms, back, pause 200ms. -/
def dom_exportAllCardsAsPNG (lookup : DomLookup) (rasterE : ElemRaster) :
    List Employee → ExportSt → Except CaptureError Unit × ExportSt
  | [], st => (.ok (), st)
  | e :: rest, st =>
    match lookup e.id .front, lookup e.id .back with
    | some frontCard, some backCard =>
        (match dom_exportSingleCardAsPNG rasterE frontCard (jsFileName e)
            .front st with
         | (.error err, st) => (.error err, st)
         | (.ok _, st) =>
             let st : ExportSt := { st with trace := st.trace ++ [.pause 100] }
             match dom_exportSingleCardAsPNG rasterE backCard (jsFileName e)
                .back st with
             | (.error err, st) => (.error err, st)
             | (.ok _, st) =>
                 let st : ExportSt :=
                   { st with trace := st.trace ++ [.pause 200] }
                 dom_exportAllCardsAsPNG lookup rasterE rest st)
    | _, _ => dom_exportAllCardsAsPNG lookup rasterE rest st

/-- `exportSingleCardAsPDF` (DOM variant): rasterize both given elements,
build a fresh two-page card-format document, save as `fileName.pdf`. -/
def dom_exportSingleCardAsPDF (rasterE : ElemRaster) (frontEl backEl : Elem)
    (fileName : String) (st : ExportSt) :
    Except CaptureError Unit × ExportSt :=
  match rasterE frontEl with
  | .error err => (.error err, st)
  | .ok frontCanvas =>
      let st : ExportSt :=
        { st with trace := st.trace ++ [.capture frontEl.cardId .front] }
      match rasterE backEl with
      | .error err => (.error err, st)
      | .ok backCanvas =>
          let st : ExportSt :=
            { st with trace := st.trace ++ [.capture backEl.cardId .back] }
          let pdf := jsPDFnew .landscape cardW cardH
          let pdf := pdf.addImage frontCanvas.dataURL 0 0 cardW cardH
          let pdf := pdf.addPage
          let pdf := pdf.addImage backCanvas.dataURL 0 0 cardW cardH
          let file := fileName ++ ".pdf"
          (.ok (), { st with savedPdfs := st.savedPdfs ++ [(file, pdf)],
                             trace := st.trace ++ [.savePdf file] })

/-- The loop body of `exportAllCardsAsPDF` (DOM variant): silently skips an
employee when either lookup returns null; otherwise captures both sides, adds
the pages exactly as the off-screen variant does, then pauses 100ms. -/
def dom_exportAllCardsAsPDFLoop (lookup : DomLookup) (rasterE : ElemRaster) :
    List Employee → PdfDoc → Bool → ExportSt →
      Except CaptureError PdfDoc × ExportSt
  | [], pdf, _, st => (.ok pdf, st)
  | e :: rest, pdf, firstPage, st =>
    match lookup e.id .front, lookup e.id .back with
    | some frontCard, some backCard =>
        (match rasterE frontCard with
         | .error err => (.error err, st)
         | .ok frontCanvas =>
             let st : ExportSt :=
               { st with trace := st.trace
                   ++ [.capture frontCard.cardId .front] }
             match rasterE backCard with
             | .error err => (.error err, st)
             | .ok backCanvas =>
                 let st : ExportSt :=
                   { st with trace := st.trace
                       ++ [.capture backCard.cardId .back] }
                 let pdf := if firstPage then pdf else pdf.addPage
                 let pdf := pdf.addImage frontCanvas.dataURL 0 0 cardW cardH
                 let pdf := pdf.addPage
                 let pdf := pdf.addImage backCanvas.dataURL 0 0 cardW cardH
                 let st : ExportSt :=
                   { st with trace := st.trace ++ [.pause 100] }
                 dom_exportAllCardsAsPDFLoop lookup rasterE rest pdf false st)
    | _, _ => dom_exportAllCardsAsPDFLoop lookup rasterE rest pdf firstPage st

/-- `exportAllCardsAsPDF` (DOM variant): run the loop on a fresh card-format
document, then save unconditionally under the fixed name. -/
def dom_exportAllCardsAsPDF (lookup : DomLookup) (rasterE : ElemRaster)
    (employees : List Employee) (st : ExportSt) :
    Except CaptureError Unit × ExportSt :=
  match dom_exportAllCardsAsPDFLoop lookup rasterE employees
      (jsPDFnew .landscape cardW cardH) true st with
  | (.error err, st) => (.error err, st)
  | (.ok pdf, st) =>
      let file := "TOMO_Academy_All_ID_Cards.pdf"
      (.ok (), { st with savedPdfs := st.savedPdfs ++ [(file, pdf)],
                         trace := st.trace ++ [.savePdf file] })

/-- `exportIndividualPDFs` (DOM variant): silently skips an employee when
either lookup returns null; otherwise one two-page document per employee and
a 300ms pause. -/
def dom_exportIndividualPDFs (lookup : DomLookup) (rasterE : ElemRaster) :
    List Employee → ExportSt → Except CaptureError Unit × ExportSt
  | [], st => (.ok (), st)
  | e :: rest, st =>
    match lookup e.id .front, lookup e.id .back with
    | some frontCard, some backCard =>
        (match dom_exportSingleCardAsPDF rasterE frontCard backCard
            (jsFileName e) st with
         | (.error err, st) => (.error err, st)
         | (.ok _, st) =>
             let st : ExportSt := { st with trace := st.trace ++ [.pause 300] }
             dom_exportIndividualPDFs lookup rasterE rest st)
    | _, _ => dom_exportIndividualPDFs lookup rasterE rest st

/-! ### Export trigger UI (`ExportIdCardsButton.tsx`) -/

/-- The rendered export trigger: the dropdown with the three export modes. -/
inductive ExportTriggerUI where
  | exportDropdown
deriving Repr, DecidableEq

/-- `ExportIdCardsButton`: `if (employees.length === 0) return null;` else the
dropdown menu. -/
def ExportIdCardsButton (employees : List Employee) : Option ExportTriggerUI :=
  if employees.length = 0 then none else some .exportDropdown

/-! ### Expected artifacts and traces (stated from the spec, for comparison
with the runs of the embedded code) -/

/-- The download names the spec predicts for a PNG batch, in order: per
employee, front then back. -/
def expectedPngDownloads (emps : List Employee) : List String :=
  emps.flatMap (fun e =>
    [jsFileName e ++ "_front.png", jsFileName e ++ "_back.png"])

/-- The event block one employee contributes to a successful off-screen PNG
batch. -/
def pngEmployeeTrace (e : Employee) : List Event :=
  [.settle 100, .capture e.id .front,
   .download (jsFileName e ++ "_front.png"),
   .pause 100,
   .settle 100, .capture e.id .back,
   .download (jsFileName e ++ "_back.png"),
   .pause 200]

/-- The full event trace of a successful off-screen PNG batch. -/
def pngTrace (emps : List Employee) : List Event :=
  emps.flatMap pngEmployeeTrace

/-- The two pages one employee contributes to the combined PDF: front page
then back page, card format, one image stretched to the full page bounds. -/
def combinedPages (canv : Employee → Side → Canvas)
    (emps : List Employee) : List PdfPage :=
  emps.flatMap (fun e =>
    [⟨cardW, cardH, [⟨(canv e .front).dataURL, 0, 0, cardW, cardH⟩]⟩,
     ⟨cardW, cardH, [⟨(canv e .back).dataURL, 0, 0, cardW, cardH⟩]⟩])

/-- The pages of the saved combined document: the loop leaves the single
initial blank page untouched when the employee list is empty. -/
def combinedDocPages (canv : Employee → Side → Canvas)
    (emps : List Employee) : List PdfPage :=
  match emps with
  | [] => [⟨cardW, cardH, []⟩]
  | _ :: _ => combinedPages canv emps

/-- The event block one employee contributes to a successful combined-PDF
batch: no pacing pause between the two sides, a 100ms pause after each
employee. -/
def combinedEmployeeTrace (e : Employee) : List Event :=
  [.settle 100, .capture e.id .front,
   .settle 100, .capture e.id .back,
   .pause 100]

/-- The loop part of the event trace of a successful combined-PDF batch. -/
def combinedTrace (emps : List Employee) : List Event :=
  emps.flatMap combinedEmployeeTrace

/-- The artifact one employee contributes to a successful individual-PDF
batch: a fresh two-page card-format document named `fileName.pdf`. -/
def expectedIndividualPdf (canv : Employee → Side → Canvas)
    (e : Employee) : String × PdfDoc :=
  (jsFileName e ++ ".pdf",
   ⟨.landscape, cardW, cardH,
     [⟨cardW, cardH, [⟨(canv e .front).dataURL, 0, 0, cardW, cardH⟩]⟩,
      ⟨cardW, cardH, [⟨(canv e .back).dataURL, 0, 0, cardW, cardH⟩]⟩]⟩)

/-- The event block one employee contributes to a successful individual-PDF
batch: no pacing pause between the two sides, a 300ms pause after each
employee. -/
def individualEmployeeTrace (e : Employee) : List Event :=
  [.settle 100, .capture e.id .front,
   .settle 100, .capture e.id .back,
   .savePdf (jsFileName e ++ ".pdf"),
   .pause 300]

/-- The full event trace of a successful individual-PDF batch. -/
def individualTrace (emps : List Employee) : List Event :=
  emps.flatMap individualEmployeeTrace

/-- The event block one employee contributes to a successful DOM-lookup PNG
batch (captures carry the card-id attribute of the found elements). -/
def domPngEmployeeTrace (e : Employee) : List Event :=
  [.capture e.id .front, .download (jsFileName e ++ "_front.png"),
   .pause 100,
   .capture e.id .back, .download (jsFileName e ++ "_back.png"),
   .pause 200]

/-- The full event trace of a successful DOM-lookup PNG batch. -/
def domPngTrace (emps : List Employee) : List Event :=
  emps.flatMap domPngEmployeeTrace

/-- The two pages one employee contributes to the DOM-lookup combined PDF
when its elements resolve: images captured from the elements found by the
(card id, side) attribute pair. -/
def domCombinedPages (canvE : Elem → Canvas)
    (emps : List Employee) : List PdfPage :=
  emps.flatMap (fun e =>
    [⟨cardW, cardH, [⟨(canvE ⟨e.id, .front⟩).dataURL, 0, 0, cardW, cardH⟩]⟩,
     ⟨cardW, cardH, [⟨(canvE ⟨e.id, .back⟩).dataURL, 0, 0, cardW, cardH⟩]⟩])

/-- The pages of the saved DOM-lookup combined document: the loop leaves the
single initial blank page untouched when the employee list is empty. -/
def domCombinedDocPages (canvE : Elem → Canvas)
    (emps : List Employee) : List PdfPage :=
  match emps with
  | [] => [⟨cardW, cardH, []⟩]
  | _ :: _ => domCombinedPages canvE emps

/-- The event block one employee contributes to a successful DOM-lookup
combined-PDF batch. -/
def domCombinedEmployeeTrace (e : Employee) : List Event :=
  [.capture e.id .front, .capture e.id .back, .pause 100]

/-- The loop part of the event trace of a successful DOM-lookup combined-PDF
batch. -/
def domCombinedTrace (emps : List Employee) : List Event :=
  emps.flatMap domCombinedEmployeeTrace

/-- The pacing pauses of a trace, in order. -/
def pausesOf (t : List Event) : List Nat :=
  t.filterMap (fun ev =>
    match ev with
    | .pause ms => some ms
    | _ => none)

/-- The successful captures of a trace, in order. -/
def capturesOf (t : List Event) : List (String × Side) :=
  t.filterMap (fun ev =>
    match ev with
    | .capture id s => some (id, s)
    | _ => none)

/-- The capture order the spec demands: per employee front then back, in
input order. -/
def interleavedCaptures (emps : List Employee) : List (String × Side) :=
  emps.flatMap (fun e => [(e.id, Side.front), (e.id, Side.back)])

/-! ### Concrete instances used by witnesses and counterexamples -/

/-- A second concrete employee. -/
def grace : Employee :=
  { id := "3", name := "Grace Hopper", role := "Admiral",
    employeeId := "E003", location := "NYC" }

/-- A rasterizer that always succeeds with a fixed canvas. -/
def okRaster : Raster := fun _ _ => .ok ⟨"data:image/png;base64,AAAA"⟩

/-- The canvas function matching `okRaster`. -/
def okCanv : Employee → Side → Canvas := fun _ _ => ⟨"data:image/png;base64,AAAA"⟩

/-- A second always-succeeding rasterizer returning different pixels. -/
def okRaster2 : Raster := fun _ _ => .ok ⟨"data:image/png;base64,BBBB"⟩

/-- The canvas function matching `okRaster2`. -/
def okCanv2 : Employee → Side → Canvas :=
  fun _ _ => ⟨"data:image/png;base64,BBBB"⟩

/-- A rasterizer that always throws (e.g. a tainted canvas). -/
def failRaster : Raster := fun _ _ => .error ⟨"tainted canvas"⟩

/-- A rasterizer that throws exactly on employee id "3" (`grace`). -/
def failOnGraceRaster : Raster := fun e _ =>
  if e.id = "3" then .error ⟨"tainted canvas"⟩
  else .ok ⟨"data:image/png;base64,AAAA"⟩

/-- An on-screen DOM that resolves every (card id, side) pair. -/
def fullLookup : DomLookup := fun id s => some ⟨id, s⟩

/-- An on-screen DOM with no card elements at all. -/
def emptyLookup : DomLookup := fun _ _ => none

/-- An on-screen DOM missing exactly the back element of employee id "3". -/
def missingGraceLookup : DomLookup := fun id s =>
  if id = "3" && (s == Side.back) then none else some ⟨id, s⟩

/-- An element rasterizer that always succeeds. -/
def okElemRaster : ElemRaster := fun _ => .ok ⟨"data:image/png;base64,AAAA"⟩

/-! ### Theorems -/

/-- Taking the mapped first characters commutes with restricting to the first
`n` nonempty tokens: each nonempty token contributes exactly one character. -/
theorem tokenFirstChars_take (toks : List (List Char)) :
    ∀ n : Nat,
      ((tokenFirstChars toks).map Char.toUpper).take n
        = ((toks.filter (· ≠ [])).take n).filterMap
            (fun t => t.head?.map Char.toUpper) := by
  induction toks with
  | nil => intro n; simp [tokenFirstChars]
  | cons t rest ih =>
    intro n
    cases t with
    | nil => simpa [tokenFirstChars, List.filterMap_cons] using ih n
    | cons c cs =>
      cases n with
      | zero => simp
      | succ m =>
        have h1 : tokenFirstChars ((c :: cs) :: rest) = c :: tokenFirstChars rest := by
          simp [tokenFirstChars, List.filterMap_cons]
        have hfilter : List.filter (fun x => decide (x ≠ [])) ((c :: cs) :: rest)
            = (c :: cs) :: List.filter (fun x => decide (x ≠ [])) rest := by
          simp
        rw [h1, List.map_cons, List.take_succ_cons, hfilter, List.take_succ_cons]
        simp only [List.filterMap_cons, List.head?_cons, Option.map_some']
        rw [ih m]

/-- `jsInitials` agrees everywhere with the spec §4.1 space-separated-token
description of the fallback. -/
theorem jsInitials_eq_specInitialsSpace (name : String) :
    jsInitials name = specInitialsSpace name := by
  unfold jsInitials specInitialsSpace
  rw [tokenFirstChars_take]

/-- Claim C2, as written, is false on two independent counts.
(1) Token splitting: for the tab-separated name `"Ada\tLovelace"` the code
computes `"A"` (JS `split(' ')` splits on the space character only), while
the claim's whitespace-separated-token rule demands `"AL"`; the rendered
fallback for that photo-less employee is the `"A"` glyph.
(2) The "fails to load" branch: `ExportableIDCard` renders the `<img>`
unconditionally whenever a photo is present — its source has no `onError`
handler, so the markup cannot depend on the load outcome — hence for
`brokenPhotoAda`, whose photo URL fails to load, the rendered avatar is the
broken `<img>` element, not the `"AL"` initials glyph the claim demands. -/
theorem initials_fallback_counterexample :
    jsInitials "Ada\tLovelace" = "A"
    ∧ specInitialsWhitespace "Ada\tLovelace" = "AL"
    ∧ jsInitials "Ada\tLovelace" ≠ specInitialsWhitespace "Ada\tLovelace"
    ∧ renderAvatar adaTab = .initialsGlyph "A"
    ∧ renderAvatar brokenPhotoAda = .photoImg "https://example.invalid/ada.png"
    ∧ renderAvatar brokenPhotoAda ≠ .initialsGlyph "AL" := by
  exact ⟨by decide, by decide, by decide, by decide, by decide, by decide⟩

/-- Claim C2 (amended, changed only where the counterexamples force it: the
tokens are SPACE-separated, as spec §4.1 itself says, not
whitespace-separated; and the load-failure fallback exists only in the
compact card — the exportable card renders the `<img>` unconditionally
whenever a photo is present, having no `onError` handler): for every
employee whose photo is missing (JS-falsy), the exportable card renders the
initials glyph equal to the uppercase first letters of the first two
space-separated name tokens; the compact card renders that same glyph both
when the photo is missing and after a photo load error; whenever a photo is
present the exportable card renders the `<img>` regardless of load outcome;
the claim's examples hold.  The fallback computation is a total Lean
function, so it never throws. -/
theorem renderAvatar_initials_fallback :
    (∀ e : Employee, photoTruthy e.photo = false →
      renderAvatar e = .initialsGlyph (specInitialsSpace e.name))
    ∧ (∀ e : Employee, compactRenderAvatar e e.photo true
        = .initialsGlyph (specInitialsSpace e.name))
    ∧ (∀ e : Employee, photoTruthy e.photo = true →
      renderAvatar e = .photoImg (e.photo.getD ""))
    ∧ jsInitials "Ada Lovelace" = "AL"
    ∧ jsInitials "Ada" = "A" := by
  refine ⟨?_, ?_, ?_, by decide, by decide⟩
  · intro e he
    simp [renderAvatar, he, jsInitials_eq_specInitialsSpace]
  · intro e
    simp [compactRenderAvatar, getAvatarPropsFallback]
  · intro e he
    simp [renderAvatar, he]

/-- Witness for the amended C2 theorem at the concrete employee `ada`. -/
theorem renderAvatar_initials_fallback_witness :
    photoTruthy ada.photo = false ∧ renderAvatar ada = .initialsGlyph "AL" := by
  refine ⟨by decide, ?_⟩
  have h := renderAvatar_initials_fallback.1 ada (by decide)
  rw [h]
  decide

/-- Flattening the code's file-name concatenation for the front side. -/
theorem append_side_front (f : String) :
    f ++ "_" ++ Side.front.str ++ ".png" = f ++ "_front.png" := by
  rw [String.append_assoc, String.append_assoc]
  exact congrArg (f ++ ·) (by decide)

/-- Flattening the code's file-name concatenation for the back side. -/
theorem append_side_back (f : String) :
    f ++ "_" ++ Side.back.str ++ ".png" = f ++ "_back.png" := by
  rw [String.append_assoc, String.append_assoc]
  exact congrArg (f ++ ·) (by decide)

/-- Running the PNG batch on `xs ++ rest` when every capture for `xs`
succeeds first processes `xs` completely, appending its downloads and trace,
then continues with `rest` from the resulting state. -/
theorem exportAllCardsAsPNG_append (raster : Raster)
    (canv : Employee → Side → Canvas) :
    ∀ xs : List Employee, (∀ e ∈ xs, ∀ s, raster e s = .ok (canv e s)) →
      ∀ (rest : List Employee) (st : ExportSt),
        exportAllCardsAsPNG raster (xs ++ rest) st
          = exportAllCardsAsPNG raster rest
              { st with downloads := st.downloads ++ expectedPngDownloads xs,
                        trace := st.trace ++ pngTrace xs } := by
  intro xs
  induction xs with
  | nil =>
      intro _ rest st
      simp [expectedPngDownloads, pngTrace]
  | cons e xs ih =>
      intro h rest st
      have hf := h e (by simp) .front
      have hb := h e (by simp) .back
      simp only [List.cons_append, exportAllCardsAsPNG, exportSingleCardAsPNG,
        renderAndCapture, hf, hb]
      rw [List.append_eq, ih (fun x hx s => h x (by simp [hx]) s)]
      simp [expectedPngDownloads, pngTrace, pngEmployeeTrace,
        append_side_front, append_side_back, List.append_assoc]

/-- A successful PNG batch returns ok and appends exactly the expected
downloads and trace. -/
theorem exportAllCardsAsPNG_ok_run (raster : Raster)
    (canv : Employee → Side → Canvas)
    (h : ∀ e s, raster e s = .ok (canv e s))
    (emps : List Employee) (st : ExportSt) :
    exportAllCardsAsPNG raster emps st
      = (.ok (), { st with
          downloads := st.downloads ++ expectedPngDownloads emps,
          trace := st.trace ++ pngTrace emps }) := by
  simpa [exportAllCardsAsPNG] using
    exportAllCardsAsPNG_append raster canv emps (fun e _ s => h e s)
      ([] : List Employee) st

/-- `addPage` followed by a full-bounds `addImage` appends one fresh page
holding exactly that image. -/
theorem addPage_addImage (d : PdfDoc) (data : String) :
    (d.addPage).addImage data 0 0 cardW cardH
      = { d with pages := d.pages
          ++ [⟨d.formatW, d.formatH, [⟨data, 0, 0, cardW, cardH⟩]⟩] } := by
  simp [PdfDoc.addPage, PdfDoc.addImage, List.getLast?_concat,
    List.dropLast_concat]

/-- Running the individual-PDF batch on `xs ++ rest` when every capture for
`xs` succeeds first saves `xs`'s documents, then continues with `rest`. -/
theorem exportIndividualPDFs_append (raster : Raster)
    (canv : Employee → Side → Canvas) :
    ∀ xs : List Employee, (∀ e ∈ xs, ∀ s, raster e s = .ok (canv e s)) →
      ∀ (rest : List Employee) (st : ExportSt),
        exportIndividualPDFs raster (xs ++ rest) st
          = exportIndividualPDFs raster rest
              { st with
                savedPdfs := st.savedPdfs ++ xs.map (expectedIndividualPdf canv),
                trace := st.trace ++ individualTrace xs } := by
  intro xs
  induction xs with
  | nil => intro _ rest st; simp [individualTrace]
  | cons e xs ih =>
      intro h rest st
      have hf := h e (by simp) .front
      have hb := h e (by simp) .back
      simp only [List.cons_append, exportIndividualPDFs, exportSingleCardAsPDF,
        renderAndCapture, hf, hb]
      rw [List.append_eq, ih (fun x hx s => h x (by simp [hx]) s)]
      simp [individualTrace, individualEmployeeTrace, expectedIndividualPdf,
        jsPDFnew, PdfDoc.addPage, PdfDoc.addImage, List.append_assoc]

/-- Running the combined-PDF loop on `xs ++ rest` past the first page, when
every capture for `xs` succeeds and the document has the card format,
appends `xs`'s pages and trace, then continues with `rest`. -/
theorem exportAllCardsAsPDFLoop_append (raster : Raster)
    (canv : Employee → Side → Canvas) :
    ∀ xs : List Employee, (∀ e ∈ xs, ∀ s, raster e s = .ok (canv e s)) →
      ∀ (rest : List Employee) (pdf : PdfDoc), pdf.formatW = cardW →
        pdf.formatH = cardH → ∀ st : ExportSt,
        exportAllCardsAsPDFLoop raster (xs ++ rest) pdf false st
          = exportAllCardsAsPDFLoop raster rest
              { pdf with pages := pdf.pages ++ combinedPages canv xs } false
              { st with trace := st.trace ++ combinedTrace xs } := by
  intro xs
  induction xs with
  | nil => intro _ rest pdf _ _ st; simp [combinedPages, combinedTrace]
  | cons e xs ih =>
      intro h rest pdf hw hh st
      have hf := h e (by simp) .front
      have hb := h e (by simp) .back
      simp only [List.cons_append, exportAllCardsAsPDFLoop, renderAndCapture,
        hf, hb, Bool.false_eq_true, if_false, addPage_addImage]
      rw [List.append_eq,
        ih (fun x hx s => h x (by simp [hx]) s) rest _ (by simp [hw]) (by simp [hh])]
      simp [combinedPages, combinedTrace, combinedEmployeeTrace, hw, hh,
        List.append_assoc]

/-- A successful combined-PDF export returns ok and saves exactly one
document under the fixed name, with the expected pages; an empty employee
list leaves the single initial blank page. -/
theorem exportAllCardsAsPDF_ok_run (raster : Raster)
    (canv : Employee → Side → Canvas)
    (h : ∀ e s, raster e s = .ok (canv e s))
    (emps : List Employee) (st : ExportSt) :
    exportAllCardsAsPDF raster emps st
      = (.ok (), { st with
          savedPdfs := st.savedPdfs
            ++ [("TOMO_Academy_All_ID_Cards.pdf",
                ⟨.landscape, cardW, cardH, combinedDocPages canv emps⟩)],
          trace := st.trace ++ combinedTrace emps
            ++ [.savePdf "TOMO_Academy_All_ID_Cards.pdf"] }) := by
  cases emps with
  | nil =>
      simp [exportAllCardsAsPDF, exportAllCardsAsPDFLoop, combinedDocPages,
        combinedTrace, jsPDFnew]
  | cons e rest =>
      have hf := h e .front
      have hb := h e .back
      unfold exportAllCardsAsPDF
      simp only [exportAllCardsAsPDFLoop, renderAndCapture, hf, hb, if_true]
      rw [show rest = rest ++ [] by simp]
      rw [exportAllCardsAsPDFLoop_append raster canv rest (fun x _ s => h x s)
        [] _ (by simp [jsPDFnew, PdfDoc.addPage, PdfDoc.addImage])
        (by simp [jsPDFnew, PdfDoc.addPage, PdfDoc.addImage])]
      simp [exportAllCardsAsPDFLoop, combinedDocPages, combinedPages,
        combinedTrace, combinedEmployeeTrace, jsPDFnew, PdfDoc.addPage,
        PdfDoc.addImage, List.append_assoc]

/-- A successful individual-PDF batch returns ok and saves exactly the
expected per-employee documents. -/
theorem exportIndividualPDFs_ok_run (raster : Raster)
    (canv : Employee → Side → Canvas)
    (h : ∀ e s, raster e s = .ok (canv e s))
    (emps : List Employee) (st : ExportSt) :
    exportIndividualPDFs raster emps st
      = (.ok (), { st with
          savedPdfs := st.savedPdfs ++ emps.map (expectedIndividualPdf canv),
          trace := st.trace ++ individualTrace emps }) := by
  simpa [exportIndividualPDFs] using
    exportIndividualPDFs_append raster canv emps (fun e _ s => h e s)
      ([] : List Employee) st

/-- DOM PNG batch: an employee whose front or back element is missing from
the DOM is skipped exactly as if absent from the list, with no error. -/
theorem dom_exportAllCardsAsPNG_skip (lookup : DomLookup)
    (rasterE : ElemRaster) (e : Employee)
    (hmiss : lookup e.id .front = none ∨ lookup e.id .back = none) :
    ∀ (xs ys : List Employee) (st : ExportSt),
      dom_exportAllCardsAsPNG lookup rasterE (xs ++ e :: ys) st
        = dom_exportAllCardsAsPNG lookup rasterE (xs ++ ys) st := by
  intro xs
  induction xs with
  | nil =>
      intro ys st
      rcases hmiss with hm | hm
      · simp [dom_exportAllCardsAsPNG, hm]
      · cases hf : lookup e.id .front <;>
          simp [dom_exportAllCardsAsPNG, hf, hm]
  | cons x xs ih =>
      intro ys st
      cases hf : lookup x.id .front with
      | none =>
          simp only [List.cons_append, dom_exportAllCardsAsPNG, hf]
          exact ih ys st
      | some fc =>
          cases hb : lookup x.id .back with
          | none =>
              simp only [List.cons_append, dom_exportAllCardsAsPNG, hf, hb]
              exact ih ys st
          | some bc =>
              simp only [List.cons_append, dom_exportAllCardsAsPNG, hf, hb]
              cases h1 : dom_exportSingleCardAsPNG rasterE fc (jsFileName x)
                  .front st with
              | mk r1 st1 =>
                  cases r1 with
                  | error err => rfl
                  | ok u =>
                      dsimp only
                      cases h2 : dom_exportSingleCardAsPNG rasterE bc
                          (jsFileName x) .back
                          { st1 with trace := st1.trace ++ [.pause 100] } with
                      | mk r2 st2 =>
                          cases r2 with
                          | error err => rfl
                          | ok v => exact ih ys _

/-- DOM combined-PDF loop: a missing employee is skipped exactly as if
absent, leaving document, first-page flag and state alone. -/
theorem dom_exportAllCardsAsPDFLoop_skip (lookup : DomLookup)
    (rasterE : ElemRaster) (e : Employee)
    (hmiss : lookup e.id .front = none ∨ lookup e.id .back = none) :
    ∀ (xs ys : List Employee) (pdf : PdfDoc) (fp : Bool) (st : ExportSt),
      dom_exportAllCardsAsPDFLoop lookup rasterE (xs ++ e :: ys) pdf fp st
        = dom_exportAllCardsAsPDFLoop lookup rasterE (xs ++ ys) pdf fp st := by
  intro xs
  induction xs with
  | nil =>
      intro ys pdf fp st
      rcases hmiss with hm | hm
      · simp [dom_exportAllCardsAsPDFLoop, hm]
      · cases hf : lookup e.id .front <;>
          simp [dom_exportAllCardsAsPDFLoop, hf, hm]
  | cons x xs ih =>
      intro ys pdf fp st
      cases hf : lookup x.id .front with
      | none =>
          simp only [List.cons_append, dom_exportAllCardsAsPDFLoop, hf]
          exact ih ys pdf fp st
      | some fc =>
          cases hb : lookup x.id .back with
          | none =>
              simp only [List.cons_append, dom_exportAllCardsAsPDFLoop, hf, hb]
              exact ih ys pdf fp st
          | some bc =>
              simp only [List.cons_append, dom_exportAllCardsAsPDFLoop, hf, hb]
              cases h1 : rasterE fc with
              | error err => rfl
              | ok fcv =>
                  cases h2 : rasterE bc with
                  | error err => rfl
                  | ok bcv => exact ih ys _ _ _

/-- DOM individual-PDF batch: a missing employee is skipped exactly as if
absent. -/
theorem dom_exportIndividualPDFs_skip (lookup : DomLookup)
    (rasterE : ElemRaster) (e : Employee)
    (hmiss : lookup e.id .front = none ∨ lookup e.id .back = none) :
    ∀ (xs ys : List Employee) (st : ExportSt),
      dom_exportIndividualPDFs lookup rasterE (xs ++ e :: ys) st
        = dom_exportIndividualPDFs lookup rasterE (xs ++ ys) st := by
  intro xs
  induction xs with
  | nil =>
      intro ys st
      rcases hmiss with hm | hm
      · simp [dom_exportIndividualPDFs, hm]
      · cases hf : lookup e.id .front <;>
          simp [dom_exportIndividualPDFs, hf, hm]
  | cons x xs ih =>
      intro ys st
      cases hf : lookup x.id .front with
      | none =>
          simp only [List.cons_append, dom_exportIndividualPDFs, hf]
          exact ih ys st
      | some fc =>
          cases hb : lookup x.id .back with
          | none =>
              simp only [List.cons_append, dom_exportIndividualPDFs, hf, hb]
              exact ih ys st
          | some bc =>
              simp only [List.cons_append, dom_exportIndividualPDFs, hf, hb]
              cases h1 : dom_exportSingleCardAsPDF rasterE fc bc
                  (jsFileName x) st with
              | mk r1 st1 =>
                  cases r1 with
                  | error err => rfl
                  | ok u => exact ih ys _

/-- PNG batch, head employee's front capture throws: the error propagates
immediately; nothing further is processed (and the failing attempt leaks its
container). -/
theorem exportAllCardsAsPNG_head_fail_front (raster : Raster) (e : Employee)
    (ys : List Employee) (err : CaptureError)
    (hf : raster e .front = .error err) (st : ExportSt) :
    exportAllCardsAsPNG raster (e :: ys) st
      = (.error err,
         { st with
           dom := st.dom + 1,
           trace := st.trace ++ [.settle 100] }) := by
  simp [exportAllCardsAsPNG, exportSingleCardAsPNG, renderAndCapture, hf]

/-- PNG batch, head employee's back capture throws after a successful front:
the front download remains, the error propagates. -/
theorem exportAllCardsAsPNG_head_fail_back (raster : Raster) (e : Employee)
    (ys : List Employee) (err : CaptureError) (c : Canvas)
    (hf : raster e .front = .ok c) (hb : raster e .back = .error err)
    (st : ExportSt) :
    exportAllCardsAsPNG raster (e :: ys) st
      = (.error err,
         { st with
           dom := st.dom + 1,
           downloads := st.downloads ++ [jsFileName e ++ "_front.png"],
           trace := st.trace ++ [.settle 100, .capture e.id .front,
             .download (jsFileName e ++ "_front.png"), .pause 100,
             .settle 100] }) := by
  simp [exportAllCardsAsPNG, exportSingleCardAsPNG, renderAndCapture, hf, hb,
    append_side_front, List.append_assoc]

/-- Individual-PDF batch, head employee's front capture throws. -/
theorem exportIndividualPDFs_head_fail_front (raster : Raster) (e : Employee)
    (ys : List Employee) (err : CaptureError)
    (hf : raster e .front = .error err) (st : ExportSt) :
    exportIndividualPDFs raster (e :: ys) st
      = (.error err,
         { st with
           dom := st.dom + 1,
           trace := st.trace ++ [.settle 100] }) := by
  simp [exportIndividualPDFs, exportSingleCardAsPDF, renderAndCapture, hf]

/-- Combined-PDF loop, head employee's front capture throws. -/
theorem exportAllCardsAsPDFLoop_head_fail_front (raster : Raster)
    (e : Employee) (ys : List Employee) (err : CaptureError)
    (hf : raster e .front = .error err) (pdf : PdfDoc) (fp : Bool)
    (st : ExportSt) :
    exportAllCardsAsPDFLoop raster (e :: ys) pdf fp st
      = (.error err,
         { st with
           dom := st.dom + 1,
           trace := st.trace ++ [.settle 100] }) := by
  simp [exportAllCardsAsPDFLoop, renderAndCapture, hf]

/-- `capturesOf` distributes over trace concatenation. -/
theorem capturesOf_append (a b : List Event) :
    capturesOf (a ++ b) = capturesOf a ++ capturesOf b := by
  simp [capturesOf]

/-- `pausesOf` distributes over trace concatenation. -/
theorem pausesOf_append (a b : List Event) :
    pausesOf (a ++ b) = pausesOf a ++ pausesOf b := by
  simp [pausesOf]

/-- `filterMap` distributes over `flatMap`. -/
theorem filterMap_flatMap {A B C : Type} (l : List A) (g : A → List B)
    (f : B → Option C) :
    (l.flatMap g).filterMap f = l.flatMap (fun a => (g a).filterMap f) := by
  induction l with
  | nil => rfl
  | cons a l ih => simp [List.flatMap_cons, List.filterMap_append, ih]

/-- The captures of a successful PNG batch trace: front then back per
employee, in input order. -/
theorem capturesOf_pngTrace (emps : List Employee) :
    capturesOf (pngTrace emps) = interleavedCaptures emps := by
  rw [pngTrace, capturesOf, filterMap_flatMap, interleavedCaptures]
  congr 1

/-- The pacing pauses of a successful PNG batch trace: 100ms between the two
sides, 200ms after each employee. -/
theorem pausesOf_pngTrace (emps : List Employee) :
    pausesOf (pngTrace emps) = emps.flatMap (fun _ => [100, 200]) := by
  rw [pngTrace, pausesOf, filterMap_flatMap]
  congr 1

/-- The captures of a successful combined-PDF batch trace. -/
theorem capturesOf_combinedTrace (emps : List Employee) :
    capturesOf (combinedTrace emps) = interleavedCaptures emps := by
  rw [combinedTrace, capturesOf, filterMap_flatMap, interleavedCaptures]
  congr 1

/-- The pacing pauses of a successful combined-PDF batch trace: a single
100ms pause per employee, none between the two sides. -/
theorem pausesOf_combinedTrace (emps : List Employee) :
    pausesOf (combinedTrace emps) = emps.map (fun _ => 100) := by
  rw [combinedTrace, pausesOf, filterMap_flatMap]
  induction emps with
  | nil => rfl
  | cons e rest ih =>
      rw [List.flatMap_cons, List.map_cons, ih]
      rfl

/-- The captures of a successful individual-PDF batch trace. -/
theorem capturesOf_individualTrace (emps : List Employee) :
    capturesOf (individualTrace emps) = interleavedCaptures emps := by
  rw [individualTrace, capturesOf, filterMap_flatMap, interleavedCaptures]
  congr 1

/-- The pacing pauses of a successful individual-PDF batch trace: a single
300ms pause per employee, none between the two sides. -/
theorem pausesOf_individualTrace (emps : List Employee) :
    pausesOf (individualTrace emps) = emps.map (fun _ => 300) := by
  rw [individualTrace, pausesOf, filterMap_flatMap]
  induction emps with
  | nil => rfl
  | cons e rest ih =>
      rw [List.flatMap_cons, List.map_cons, ih]
      rfl

/-- A PNG batch yields two download names per employee. -/
theorem expectedPngDownloads_length (emps : List Employee) :
    (expectedPngDownloads emps).length = 2 * emps.length := by
  induction emps with
  | nil => simp [expectedPngDownloads]
  | cons e rest ih =>
      simp [expectedPngDownloads] at ih ⊢
      omega

/-- The combined document gains exactly two pages per employee. -/
theorem combinedPages_length (canv : Employee → Side → Canvas)
    (emps : List Employee) :
    (combinedPages canv emps).length = 2 * emps.length := by
  induction emps with
  | nil => simp [combinedPages]
  | cons e rest ih =>
      simp [combinedPages] at ih ⊢
      omega

/-- Every page of the combined document has the card format and exactly one
image stretched to the full page bounds. -/
theorem combinedPages_mem (canv : Employee → Side → Canvas)
    (emps : List Employee) :
    ∀ p ∈ combinedPages canv emps, p.width = cardW ∧ p.height = cardH
      ∧ ∃ img, p.images = [img] ∧ img.x = 0 ∧ img.y = 0
          ∧ img.w = cardW ∧ img.h = cardH := by
  induction emps with
  | nil => simp [combinedPages]
  | cons e rest ih =>
      intro p hp
      simp only [combinedPages, List.flatMap_cons, List.mem_append,
        List.mem_cons, List.mem_singleton] at hp
      rcases hp with (h | h | h) | h
      · subst h; exact ⟨rfl, rfl, _, rfl, rfl, rfl, rfl, rfl⟩
      · subst h; exact ⟨rfl, rfl, _, rfl, rfl, rfl, rfl, rfl⟩
      · cases h
      · exact ih p (by simpa [combinedPages] using h)

/-- A successful DOM-lookup PNG batch in which every element resolves:
returns ok and appends exactly the expected downloads. -/
theorem dom_exportAllCardsAsPNG_ok_run (lookup : DomLookup)
    (rasterE : ElemRaster) (canvE : Elem → Canvas)
    (hl : ∀ id s, lookup id s = some ⟨id, s⟩)
    (hre : ∀ el, rasterE el = .ok (canvE el)) :
    ∀ (emps : List Employee) (st : ExportSt),
      dom_exportAllCardsAsPNG lookup rasterE emps st
        = (.ok (), { st with
            downloads := st.downloads ++ expectedPngDownloads emps,
            trace := st.trace ++ domPngTrace emps }) := by
  intro emps
  induction emps with
  | nil =>
      intro st
      simp [dom_exportAllCardsAsPNG, expectedPngDownloads, domPngTrace]
  | cons e rest ih =>
      intro st
      have hf := hl e.id .front
      have hb := hl e.id .back
      simp only [dom_exportAllCardsAsPNG, hf, hb, dom_exportSingleCardAsPNG, hre]
      rw [ih]
      simp [expectedPngDownloads, domPngTrace, domPngEmployeeTrace,
        append_side_front, append_side_back, List.append_assoc]

/-- The combined-PDF loop never touches the saved-PDF list; only the final
`pdf.save` of the wrapper does. -/
theorem exportAllCardsAsPDFLoop_savedPdfs (raster : Raster) :
    ∀ (emps : List Employee) (pdf : PdfDoc) (fp : Bool) (st : ExportSt),
      ((exportAllCardsAsPDFLoop raster emps pdf fp st).2).savedPdfs
        = st.savedPdfs := by
  intro emps
  induction emps with
  | nil => intro pdf fp st; rfl
  | cons e rest ih =>
      intro pdf fp st
      simp only [exportAllCardsAsPDFLoop, renderAndCapture]
      cases raster e .front with
      | error err => rfl
      | ok fc =>
          dsimp only
          cases raster e .back with
          | error err => rfl
          | ok bc =>
              dsimp only
              exact ih _ _ _

/-- `addImage` keeps the document format. -/
theorem addImage_formatW (d : PdfDoc) (data : String) (x y w h : Nat) :
    (d.addImage data x y w h).formatW = d.formatW := by
  unfold PdfDoc.addImage
  cases d.pages.getLast? <;> rfl

/-- `addImage` keeps the document format. -/
theorem addImage_formatH (d : PdfDoc) (data : String) (x y w h : Nat) :
    (d.addImage data x y w h).formatH = d.formatH := by
  unfold PdfDoc.addImage
  cases d.pages.getLast? <;> rfl

/-- When the front capture of `e` throws after an all-successful prefix, the
combined-PDF loop propagates the error. -/
theorem exportAllCardsAsPDFLoop_fail (raster : Raster)
    (canv : Employee → Side → Canvas) (e : Employee) (ys : List Employee)
    (err : CaptureError) (hf : raster e .front = .error err) :
    ∀ xs : List Employee, (∀ x ∈ xs, ∀ s, raster x s = .ok (canv x s)) →
      ∀ pdf : PdfDoc, pdf.formatW = cardW → pdf.formatH = cardH →
        ∀ (fp : Bool) (st : ExportSt),
          (exportAllCardsAsPDFLoop raster (xs ++ e :: ys) pdf fp st).1
            = .error err := by
  intro xs
  cases xs with
  | nil =>
      intro _ pdf _ _ fp st
      rw [List.nil_append,
        exportAllCardsAsPDFLoop_head_fail_front raster e ys err hf pdf fp st]
  | cons x xs =>
      intro h pdf hw hh fp st
      have hxf := h x (by simp) .front
      have hxb := h x (by simp) .back
      simp only [List.cons_append, exportAllCardsAsPDFLoop, renderAndCapture,
        hxf, hxb]
      cases fp with
      | false =>
          simp only [Bool.false_eq_true, if_false, addPage_addImage]
          rw [List.append_eq,
            exportAllCardsAsPDFLoop_append raster canv xs
              (fun y hy s => h y (by simp [hy]) s) (e :: ys) _
              (by simp [addImage_formatW, addImage_formatH, PdfDoc.addPage, hw])
              (by simp [addImage_formatW, addImage_formatH, PdfDoc.addPage, hh]),
            exportAllCardsAsPDFLoop_head_fail_front raster e ys err hf]
      | true =>
          simp only [if_true, addPage_addImage]
          rw [List.append_eq,
            exportAllCardsAsPDFLoop_append raster canv xs
              (fun y hy s => h y (by simp [hy]) s) (e :: ys) _
              (by simp [addImage_formatW, addImage_formatH, PdfDoc.addPage, hw])
              (by simp [addImage_formatW, addImage_formatH, PdfDoc.addPage, hh]),
            exportAllCardsAsPDFLoop_head_fail_front raster e ys err hf]

/-- A DOM-lookup combined-PDF loop in which every employee is skipped leaves
the document and the state untouched. -/
theorem dom_exportAllCardsAsPDFLoop_all_skip (lookup : DomLookup)
    (rasterE : ElemRaster) :
    ∀ emps : List Employee,
      (∀ e ∈ emps, lookup e.id .front = none ∨ lookup e.id .back = none) →
      ∀ (pdf : PdfDoc) (fp : Bool) (st : ExportSt),
        dom_exportAllCardsAsPDFLoop lookup rasterE emps pdf fp st
          = (.ok pdf, st) := by
  intro emps
  induction emps with
  | nil => intro _ pdf fp st; rfl
  | cons e rest ih =>
      intro h pdf fp st
      have htail : ∀ x ∈ rest,
          lookup x.id Side.front = none ∨ lookup x.id Side.back = none :=
        fun x hx => h x (by simp [hx])
      rcases h e (by simp) with hm | hm
      · simp only [dom_exportAllCardsAsPDFLoop, hm]
        exact ih htail pdf fp st
      · cases hfv : lookup e.id .front with
        | none =>
            simp only [dom_exportAllCardsAsPDFLoop, hfv]
            exact ih htail pdf fp st
        | some fc =>
            simp only [dom_exportAllCardsAsPDFLoop, hfv, hm]
            exact ih htail pdf fp st

/-- Running the DOM-lookup combined-PDF loop on `xs ++ rest` past the first
page, when every element of `xs` resolves and every capture succeeds,
appends `xs`'s pages and trace, then continues with `rest`. -/
theorem dom_exportAllCardsAsPDFLoop_append (lookup : DomLookup)
    (rasterE : ElemRaster) (canvE : Elem → Canvas)
    (hl : ∀ id s, lookup id s = some ⟨id, s⟩)
    (hre : ∀ el, rasterE el = .ok (canvE el)) :
    ∀ xs : List Employee, ∀ (rest : List Employee) (pdf : PdfDoc),
      pdf.formatW = cardW → pdf.formatH = cardH → ∀ st : ExportSt,
        dom_exportAllCardsAsPDFLoop lookup rasterE (xs ++ rest) pdf false st
          = dom_exportAllCardsAsPDFLoop lookup rasterE rest
              { pdf with pages := pdf.pages ++ domCombinedPages canvE xs }
              false
              { st with trace := st.trace ++ domCombinedTrace xs } := by
  intro xs
  induction xs with
  | nil => intro rest pdf _ _ st; simp [domCombinedPages, domCombinedTrace]
  | cons e xs ih =>
      intro rest pdf hw hh st
      have hf := hl e.id .front
      have hb := hl e.id .back
      simp only [List.cons_append, dom_exportAllCardsAsPDFLoop, hf, hb, hre,
        Bool.false_eq_true, if_false, addPage_addImage]
      rw [List.append_eq,
        ih rest _
          (by simp [addImage_formatW, addImage_formatH, PdfDoc.addPage, hw])
          (by simp [addImage_formatW, addImage_formatH, PdfDoc.addPage, hh])]
      simp [domCombinedPages, domCombinedTrace, domCombinedEmployeeTrace,
        hw, hh, List.append_assoc]

/-- A successful DOM-lookup combined-PDF export in which every element
resolves: exactly one document saved under the fixed name, with the expected
pages; an empty list leaves the single initial blank page. -/
theorem dom_exportAllCardsAsPDF_ok_run (lookup : DomLookup)
    (rasterE : ElemRaster) (canvE : Elem → Canvas)
    (hl : ∀ id s, lookup id s = some ⟨id, s⟩)
    (hre : ∀ el, rasterE el = .ok (canvE el))
    (emps : List Employee) (st : ExportSt) :
    dom_exportAllCardsAsPDF lookup rasterE emps st
      = (.ok (), { st with
          savedPdfs := st.savedPdfs
            ++ [("TOMO_Academy_All_ID_Cards.pdf",
                ⟨.landscape, cardW, cardH, domCombinedDocPages canvE emps⟩)],
          trace := st.trace ++ domCombinedTrace emps
            ++ [.savePdf "TOMO_Academy_All_ID_Cards.pdf"] }) := by
  cases emps with
  | nil =>
      simp [dom_exportAllCardsAsPDF, dom_exportAllCardsAsPDFLoop,
        domCombinedDocPages, domCombinedTrace, jsPDFnew]
  | cons e rest =>
      have hf := hl e.id .front
      have hb := hl e.id .back
      unfold dom_exportAllCardsAsPDF
      simp only [dom_exportAllCardsAsPDFLoop, hf, hb, hre, if_true]
      rw [show rest = rest ++ [] by simp]
      rw [dom_exportAllCardsAsPDFLoop_append lookup rasterE canvE hl hre rest
        [] _ (by simp [jsPDFnew, PdfDoc.addPage, PdfDoc.addImage])
        (by simp [jsPDFnew, PdfDoc.addPage, PdfDoc.addImage])]
      simp [dom_exportAllCardsAsPDFLoop, domCombinedDocPages, domCombinedPages,
        domCombinedTrace, domCombinedEmployeeTrace, jsPDFnew, PdfDoc.addPage,
        PdfDoc.addImage, List.append_assoc]

/-- The DOM-lookup combined document also gains exactly two pages per
resolved employee. -/
theorem domCombinedPages_length (canvE : Elem → Canvas)
    (emps : List Employee) :
    (domCombinedPages canvE emps).length = 2 * emps.length := by
  induction emps with
  | nil => simp [domCombinedPages]
  | cons e rest ih =>
      simp [domCombinedPages] at ih ⊢
      omega

/-- Every page of the DOM-lookup combined document has the card format and
exactly one image stretched to the full page bounds. -/
theorem domCombinedPages_mem (canvE : Elem → Canvas)
    (emps : List Employee) :
    ∀ p ∈ domCombinedPages canvE emps, p.width = cardW ∧ p.height = cardH
      ∧ ∃ img, p.images = [img] ∧ img.x = 0 ∧ img.y = 0
          ∧ img.w = cardW ∧ img.h = cardH := by
  induction emps with
  | nil => simp [domCombinedPages]
  | cons e rest ih =>
      intro p hp
      simp only [domCombinedPages, List.flatMap_cons, List.mem_append,
        List.mem_cons, List.mem_singleton] at hp
      rcases hp with (h | h | h) | h
      · subst h; exact ⟨rfl, rfl, _, rfl, rfl, rfl, rfl, rfl⟩
      · subst h; exact ⟨rfl, rfl, _, rfl, rfl, rfl, rfl, rfl⟩
      · cases h
      · exact ih p (by simpa [domCombinedPages] using h)

/-! ### Claim theorems -/

/-- Claim C1 is violated by the code: `renderAndCapture` wraps nothing in a
try/finally-equivalent, so a capture attempt whose rasterizer throws
propagates the error with the temporary off-screen container still attached
to the document (one leaked node, `dom = 1`), whereas a successful attempt
removes it (`dom = 0`). -/
theorem renderAndCapture_leaks_container_on_failure :
    (renderAndCapture failRaster ada .front st0).1
      = .error ⟨"tainted canvas"⟩
    ∧ ((renderAndCapture failRaster ada .front st0).2).dom = 1
    ∧ ((renderAndCapture okRaster ada .front st0).2).dom = 0 :=
  ⟨rfl, rfl, rfl⟩

/-- Claim C3: a successful PNG batch over N employees triggers exactly 2N
downloads, interleaved front(1), back(1), …, front(N), back(N) in input
order, each named `{name with whitespace runs as underscores}_{employeeId}_`
`{side}.png` — for the off-screen pipeline, and for the DOM-lookup pipeline
whenever every element resolves; the claim's example holds for `ada`. -/
theorem png_batch_download_names (emps : List Employee) (raster : Raster)
    (canv : Employee → Side → Canvas)
    (h : ∀ e s, raster e s = .ok (canv e s))
    (lookup : DomLookup) (rasterE : ElemRaster) (canvE : Elem → Canvas)
    (hl : ∀ id s, lookup id s = some ⟨id, s⟩)
    (hre : ∀ el, rasterE el = .ok (canvE el)) :
    (exportAllCardsAsPNG raster emps st0).2.downloads
        = expectedPngDownloads emps
    ∧ (exportAllCardsAsPNG raster emps st0).2.downloads.length
        = 2 * emps.length
    ∧ (dom_exportAllCardsAsPNG lookup rasterE emps st0).2.downloads
        = expectedPngDownloads emps
    ∧ expectedPngDownloads [ada]
        = ["Ada_Lovelace_E001_front.png", "Ada_Lovelace_E001_back.png"] := by
  rw [exportAllCardsAsPNG_ok_run raster canv h,
    dom_exportAllCardsAsPNG_ok_run lookup rasterE canvE hl hre]
  refine ⟨rfl, ?_, rfl, by decide⟩
  simp [st0, expectedPngDownloads_length]

/-- Witness for C3 at `[ada]` with concrete all-resolving oracles. -/
theorem png_batch_download_names_witness :
    (exportAllCardsAsPNG okRaster [ada] st0).2.downloads
      = ["Ada_Lovelace_E001_front.png", "Ada_Lovelace_E001_back.png"]
    ∧ (dom_exportAllCardsAsPNG fullLookup okElemRaster [ada] st0).2.downloads
      = ["Ada_Lovelace_E001_front.png", "Ada_Lovelace_E001_back.png"] := by
  have h := png_batch_download_names [ada] okRaster okCanv (fun _ _ => rfl)
    fullLookup okElemRaster (fun _ => ⟨"data:image/png;base64,AAAA"⟩)
    (fun _ _ => rfl) (fun _ => rfl)
  exact ⟨h.1.trans h.2.2.2, h.2.2.1.trans h.2.2.2⟩

/-- Claim C4, as written, fails at N = 0: the combined-PDF export of an
empty list still saves the document — with its single initial blank page,
not with 2 · 0 = 0 pages. -/
theorem combined_pdf_empty_counterexample :
    ((exportAllCardsAsPDF okRaster [] st0).2.savedPdfs.map
        (fun p => (p.1, p.2.pages.length)))
      = [("TOMO_Academy_All_ID_Cards.pdf", 1)]
    ∧ (1 : Nat) ≠ 2 * ([] : List Employee).length :=
  ⟨rfl, by decide⟩

/-- Claim C4 (amended: for a NONEMPTY employee list — the empty list instead
saves the single initial blank page, see the counterexample — and, in the
DOM-lookup variant, additionally under every employee's front and back
elements resolving, since a missed lookup silently skips that employee's two
pages, see C6): a successful combined-PDF export saves exactly one document
under the fixed name `TOMO_Academy_All_ID_Cards.pdf`, with exactly 2N pages
ordered front(1), back(1), …, no separator pages, every page of card format
85.6mm × 53.98mm in landscape orientation holding one image stretched to the
full page bounds — in both cited pipelines. -/
theorem combined_pdf_layout (emps : List Employee) (raster : Raster)
    (canv : Employee → Side → Canvas)
    (h : ∀ e s, raster e s = .ok (canv e s))
    (lookup : DomLookup) (rasterE : ElemRaster) (canvE : Elem → Canvas)
    (hl : ∀ id s, lookup id s = some ⟨id, s⟩)
    (hre : ∀ el, rasterE el = .ok (canvE el)) (hne : emps ≠ []) :
    ((exportAllCardsAsPDF raster emps st0).1 = .ok ()
    ∧ (exportAllCardsAsPDF raster emps st0).2.savedPdfs
        = [("TOMO_Academy_All_ID_Cards.pdf",
            ⟨.landscape, cardW, cardH, combinedPages canv emps⟩)]
    ∧ (combinedPages canv emps).length = 2 * emps.length
    ∧ (∀ p ∈ combinedPages canv emps, p.width = cardW ∧ p.height = cardH
        ∧ ∃ img, p.images = [img] ∧ img.x = 0 ∧ img.y = 0
            ∧ img.w = cardW ∧ img.h = cardH))
    ∧ ((dom_exportAllCardsAsPDF lookup rasterE emps st0).1 = .ok ()
    ∧ (dom_exportAllCardsAsPDF lookup rasterE emps st0).2.savedPdfs
        = [("TOMO_Academy_All_ID_Cards.pdf",
            ⟨.landscape, cardW, cardH, domCombinedPages canvE emps⟩)]
    ∧ (domCombinedPages canvE emps).length = 2 * emps.length
    ∧ (∀ p ∈ domCombinedPages canvE emps, p.width = cardW ∧ p.height = cardH
        ∧ ∃ img, p.images = [img] ∧ img.x = 0 ∧ img.y = 0
            ∧ img.w = cardW ∧ img.h = cardH)) := by
  rw [exportAllCardsAsPDF_ok_run raster canv h,
    dom_exportAllCardsAsPDF_ok_run lookup rasterE canvE hl hre]
  refine ⟨⟨rfl, ?_, combinedPages_length canv emps,
      combinedPages_mem canv emps⟩,
    ⟨rfl, ?_, domCombinedPages_length canvE emps,
      domCombinedPages_mem canvE emps⟩⟩
  · cases emps with
    | nil => exact absurd rfl hne
    | cons e rest => rfl
  · cases emps with
    | nil => exact absurd rfl hne
    | cons e rest => rfl

/-- Witness for the amended C4 at `[ada]`: both pipelines save exactly one
document with 2 pages. -/
theorem combined_pdf_layout_witness :
    ([ada] : List Employee) ≠ []
    ∧ (exportAllCardsAsPDF okRaster [ada] st0).2.savedPdfs.map
        (fun p => (p.1, p.2.pages.length))
      = [("TOMO_Academy_All_ID_Cards.pdf", 2)]
    ∧ (dom_exportAllCardsAsPDF fullLookup okElemRaster [ada] st0).2.savedPdfs.map
        (fun p => (p.1, p.2.pages.length))
      = [("TOMO_Academy_All_ID_Cards.pdf", 2)] := by
  refine ⟨by decide, ?_, ?_⟩
  · have h := combined_pdf_layout [ada] okRaster okCanv (fun _ _ => rfl)
      fullLookup okElemRaster (fun _ => ⟨"data:image/png;base64,AAAA"⟩)
      (fun _ _ => rfl) (fun _ => rfl) (by decide)
    rw [h.1.2.1]
    decide
  · have h := combined_pdf_layout [ada] okRaster okCanv (fun _ _ => rfl)
      fullLookup okElemRaster (fun _ => ⟨"data:image/png;base64,AAAA"⟩)
      (fun _ _ => rfl) (fun _ => rfl) (by decide)
    rw [h.2.2.1]
    decide

/-- Claim C5: in every batch mode, when processing employee `e` fails (its
front capture throws) after an all-successful prefix `xs`, the whole job
fails: the error propagates to the caller, no later employee in `ys` is
processed, and the artifacts already produced for `xs` remain untouched
(no rollback); in combined-PDF mode no document has been saved yet and none
is saved. -/
theorem batch_export_failure_aborts (raster : Raster)
    (canv : Employee → Side → Canvas) (xs : List Employee) (e : Employee)
    (ys : List Employee) (err : CaptureError)
    (hxs : ∀ x ∈ xs, ∀ s, raster x s = .ok (canv x s))
    (hf : raster e .front = .error err) :
    ((exportAllCardsAsPNG raster (xs ++ e :: ys) st0).1 = .error err
      ∧ (exportAllCardsAsPNG raster (xs ++ e :: ys) st0).2.downloads
          = expectedPngDownloads xs)
    ∧ ((exportIndividualPDFs raster (xs ++ e :: ys) st0).1 = .error err
      ∧ (exportIndividualPDFs raster (xs ++ e :: ys) st0).2.savedPdfs
          = xs.map (expectedIndividualPdf canv))
    ∧ ((exportAllCardsAsPDF raster (xs ++ e :: ys) st0).1 = .error err
      ∧ (exportAllCardsAsPDF raster (xs ++ e :: ys) st0).2.savedPdfs
          = []) := by
  refine ⟨?_, ?_, ?_⟩
  · rw [exportAllCardsAsPNG_append raster canv xs hxs (e :: ys) st0,
      exportAllCardsAsPNG_head_fail_front raster e ys err hf]
    exact ⟨rfl, by simp [st0]⟩
  · rw [exportIndividualPDFs_append raster canv xs hxs (e :: ys) st0,
      exportIndividualPDFs_head_fail_front raster e ys err hf]
    exact ⟨rfl, by simp [st0]⟩
  · have h1 := exportAllCardsAsPDFLoop_fail raster canv e ys err hf xs hxs
      (jsPDFnew .landscape cardW cardH) rfl rfl true st0
    have h2 := exportAllCardsAsPDFLoop_savedPdfs raster (xs ++ e :: ys)
      (jsPDFnew .landscape cardW cardH) true st0
    unfold exportAllCardsAsPDF
    cases hL : exportAllCardsAsPDFLoop raster (xs ++ e :: ys)
        (jsPDFnew .landscape cardW cardH) true st0 with
    | mk r stF =>
        rw [hL] at h1 h2
        cases r with
        | ok pdf => exact absurd h1 (by simp)
        | error err2 =>
            have he : err2 = err := by simpa using h1
            subst he
            exact ⟨rfl, by simpa [st0] using h2⟩

/-- Witness for C5: with a rasterizer failing exactly on `grace`, the batch
over `[ada, grace, adaTab]` fails after producing only ada's files. -/
theorem batch_export_failure_aborts_witness :
    (exportAllCardsAsPNG failOnGraceRaster [ada, grace, adaTab] st0).1
      = .error ⟨"tainted canvas"⟩
    ∧ (exportAllCardsAsPNG failOnGraceRaster [ada, grace, adaTab]
          st0).2.downloads
      = ["Ada_Lovelace_E001_front.png", "Ada_Lovelace_E001_back.png"] := by
  have h := batch_export_failure_aborts failOnGraceRaster okCanv [ada] grace
    [adaTab] ⟨"tainted canvas"⟩
    (fun x hx s => by
      have hxa : x = ada := by simpa using hx
      subst hxa
      cases s <;> rfl)
    rfl
  exact ⟨h.1.1, h.1.2.trans (by decide)⟩

/-- Claim C6: in the DOM-lookup pipeline, an employee whose front or back
element lookup fails contributes no captures, downloads or pages and raises
no error, and every other employee is processed exactly as if the missing
one were absent — in all three batch modes. -/
theorem dom_missing_element_skips (lookup : DomLookup) (rasterE : ElemRaster)
    (e : Employee)
    (hmiss : lookup e.id .front = none ∨ lookup e.id .back = none)
    (xs ys : List Employee) :
    dom_exportAllCardsAsPNG lookup rasterE (xs ++ e :: ys) st0
      = dom_exportAllCardsAsPNG lookup rasterE (xs ++ ys) st0
    ∧ dom_exportAllCardsAsPDF lookup rasterE (xs ++ e :: ys) st0
      = dom_exportAllCardsAsPDF lookup rasterE (xs ++ ys) st0
    ∧ dom_exportIndividualPDFs lookup rasterE (xs ++ e :: ys) st0
      = dom_exportIndividualPDFs lookup rasterE (xs ++ ys) st0 := by
  refine ⟨dom_exportAllCardsAsPNG_skip lookup rasterE e hmiss xs ys st0, ?_,
    dom_exportIndividualPDFs_skip lookup rasterE e hmiss xs ys st0⟩
  unfold dom_exportAllCardsAsPDF
  rw [dom_exportAllCardsAsPDFLoop_skip lookup rasterE e hmiss xs ys _ _ st0]

/-- Witness for C6: with no on-screen elements, `[ada]` behaves like `[]`. -/
theorem dom_missing_element_skips_witness :
    (emptyLookup ada.id Side.front = none
      ∨ emptyLookup ada.id Side.back = none)
    ∧ dom_exportAllCardsAsPNG emptyLookup okElemRaster [ada] st0
        = dom_exportAllCardsAsPNG emptyLookup okElemRaster [] st0 :=
  ⟨Or.inl rfl,
   (dom_missing_element_skips emptyLookup okElemRaster ada (Or.inl rfl)
      [] []).1⟩

/-- Claim C7: with an employee list of length 0 the export trigger renders
nothing (`return null`), so no export job can start from it. -/
theorem export_button_hidden_on_empty (employees : List Employee)
    (h : employees.length = 0) :
    ExportIdCardsButton employees = none := by
  simp [ExportIdCardsButton, h]

/-- Witness for C7 at the empty list. -/
theorem export_button_hidden_on_empty_witness :
    ([] : List Employee).length = 0 ∧ ExportIdCardsButton [] = none :=
  ⟨rfl, export_button_hidden_on_empty [] rfl⟩

/-- `capturesOf` ignores a save event. -/
theorem capturesOf_savePdf (f : String) :
    capturesOf [Event.savePdf f] = [] := rfl

/-- `pausesOf` ignores a save event. -/
theorem pausesOf_savePdf (f : String) :
    pausesOf [Event.savePdf f] = [] := rfl

/-- Claim C8, as written, fails in combined-PDF mode: with the two employees
`[ada, grace]` and all captures succeeding, the only pacing pauses in the
whole run are 100ms after each employee — there is no pacing pause between
the two sides and no pause in the claimed 200–300ms band between the two
consecutive employees. -/
theorem combined_pdf_pacing_counterexample :
    pausesOf (exportAllCardsAsPDF okRaster [ada, grace] st0).2.trace
      = [100, 100]
    ∧ ((pausesOf (exportAllCardsAsPDF okRaster [ada, grace] st0).2.trace).all
        (fun p => decide (p < 200))) = true :=
  ⟨by decide, by decide⟩

/-- Claim C8 (amended): in every batch mode the captures are strictly
sequential, front before back per employee in input order; the pacing is
mode-specific — PNG mode pauses 100ms between the two sides and 200ms after
each employee, the combined-PDF mode pauses only 100ms after each employee,
and the individual-PDF mode only 300ms after each employee, neither PDF mode
with a pacing pause between the two sides (each capture still includes its
fixed 100ms render-settle delay). -/
theorem batch_capture_order_and_pacing (emps : List Employee)
    (raster : Raster) (canv : Employee → Side → Canvas)
    (h : ∀ e s, raster e s = .ok (canv e s)) :
    (capturesOf (exportAllCardsAsPNG raster emps st0).2.trace
        = interleavedCaptures emps
      ∧ pausesOf (exportAllCardsAsPNG raster emps st0).2.trace
          = emps.flatMap (fun _ => [100, 200]))
    ∧ (capturesOf (exportAllCardsAsPDF raster emps st0).2.trace
        = interleavedCaptures emps
      ∧ pausesOf (exportAllCardsAsPDF raster emps st0).2.trace
          = emps.map (fun _ => 100))
    ∧ (capturesOf (exportIndividualPDFs raster emps st0).2.trace
        = interleavedCaptures emps
      ∧ pausesOf (exportIndividualPDFs raster emps st0).2.trace
          = emps.map (fun _ => 300)) := by
  rw [exportAllCardsAsPNG_ok_run raster canv h,
    exportAllCardsAsPDF_ok_run raster canv h,
    exportIndividualPDFs_ok_run raster canv h]
  simp only [st0, capturesOf_append, pausesOf_append, capturesOf_pngTrace,
    pausesOf_pngTrace, capturesOf_combinedTrace, pausesOf_combinedTrace,
    capturesOf_individualTrace, pausesOf_individualTrace, capturesOf_savePdf,
    pausesOf_savePdf]
  refine ⟨⟨?_, ?_⟩, ⟨?_, ?_⟩, ⟨?_, ?_⟩⟩ <;> simp [capturesOf, pausesOf]

/-- Witness for the amended C8 at `[ada]`. -/
theorem batch_capture_order_and_pacing_witness :
    pausesOf (exportAllCardsAsPNG okRaster [ada] st0).2.trace = [100, 200]
    ∧ pausesOf (exportAllCardsAsPDF okRaster [ada] st0).2.trace = [100]
    ∧ pausesOf (exportIndividualPDFs okRaster [ada] st0).2.trace = [300] := by
  have h := batch_capture_order_and_pacing [ada] okRaster okCanv
    (fun _ _ => rfl)
  exact ⟨h.1.2.trans (by decide), h.2.1.2.trans (by decide),
    h.2.2.2.trans (by decide)⟩

/-- Claim C9: the produced filename sequence is a pure function of the
employee list — two successful runs with any two rasterizer environments
produce identical filename sequences (PNG download names and individual-PDF
save names), both equal to the deterministic expected list. -/
theorem export_filenames_deterministic (emps : List Employee)
    (r1 r2 : Raster) (c1 c2 : Employee → Side → Canvas)
    (h1 : ∀ e s, r1 e s = .ok (c1 e s))
    (h2 : ∀ e s, r2 e s = .ok (c2 e s)) :
    (exportAllCardsAsPNG r1 emps st0).2.downloads
        = (exportAllCardsAsPNG r2 emps st0).2.downloads
    ∧ (exportIndividualPDFs r1 emps st0).2.savedPdfs.map Prod.fst
        = (exportIndividualPDFs r2 emps st0).2.savedPdfs.map Prod.fst
    ∧ (exportAllCardsAsPNG r1 emps st0).2.downloads
        = expectedPngDownloads emps := by
  rw [exportAllCardsAsPNG_ok_run r1 c1 h1, exportAllCardsAsPNG_ok_run r2 c2 h2,
    exportIndividualPDFs_ok_run r1 c1 h1,
    exportIndividualPDFs_ok_run r2 c2 h2]
  refine ⟨rfl, ?_, by simp [st0]⟩
  simp [st0, expectedIndividualPdf, List.map_map, Function.comp]

/-- Witness for C9: two runs with rasterizers producing different pixels
yield the same download names. -/
theorem export_filenames_deterministic_witness :
    okRaster ada Side.front = .ok ⟨"data:image/png;base64,AAAA"⟩
    ∧ okRaster2 ada Side.front = .ok ⟨"data:image/png;base64,BBBB"⟩
    ∧ ("data:image/png;base64,AAAA" : String) ≠ "data:image/png;base64,BBBB"
    ∧ (exportAllCardsAsPNG okRaster [ada] st0).2.downloads
        = (exportAllCardsAsPNG okRaster2 [ada] st0).2.downloads :=
  ⟨rfl, rfl, by decide,
   (export_filenames_deterministic [ada] okRaster okRaster2 okCanv okCanv2
      (fun _ _ => rfl) (fun _ _ => rfl)).1⟩

/-- Claim C10: the combined-PDF save is unconditional — an empty employee
list (or a DOM-lookup run in which every employee is skipped) still saves
`TOMO_Academy_All_ID_Cards.pdf`, containing exactly the single blank default
page the document was created with. -/
theorem combined_pdf_unconditional_save (raster : Raster)
    (lookup : DomLookup) (rasterE : ElemRaster) (emps : List Employee)
    (hskip : ∀ e ∈ emps,
      lookup e.id .front = none ∨ lookup e.id .back = none) :
    exportAllCardsAsPDF raster [] st0
      = (.ok (), { st0 with
          savedPdfs := [("TOMO_Academy_All_ID_Cards.pdf",
            jsPDFnew .landscape cardW cardH)],
          trace := [.savePdf "TOMO_Academy_All_ID_Cards.pdf"] })
    ∧ dom_exportAllCardsAsPDF lookup rasterE emps st0
      = (.ok (), { st0 with
          savedPdfs := [("TOMO_Academy_All_ID_Cards.pdf",
            jsPDFnew .landscape cardW cardH)],
          trace := [.savePdf "TOMO_Academy_All_ID_Cards.pdf"] })
    ∧ (jsPDFnew PdfOrient.landscape cardW cardH).pages
        = [{ width := cardW, height := cardH, images := [] }] := by
  refine ⟨rfl, ?_, rfl⟩
  unfold dom_exportAllCardsAsPDF
  rw [dom_exportAllCardsAsPDFLoop_all_skip lookup rasterE emps hskip _ true st0]
  rfl

/-- Witness for C10: the DOM variant with no on-screen elements still saves
a one-page document under the fixed name. -/
theorem combined_pdf_unconditional_save_witness :
    (dom_exportAllCardsAsPDF emptyLookup okElemRaster [ada] st0).2.savedPdfs.map
        (fun p => (p.1, p.2.pages.length))
      = [("TOMO_Academy_All_ID_Cards.pdf", 1)] := by
  have h := combined_pdf_unconditional_save okRaster emptyLookup okElemRaster
    [ada] (fun _ _ => Or.inl rfl)
  rw [h.2.1]
  decide

end TomoAcademy
